import Mathlib

/-!
Verification of the django-otp-webauthn server-side WebAuthn ceremony logic.

This file is a shallow embedding, in Lean 4, of the parts of the package
`django_otp_webauthn` (files `models.py`, `helpers.py`, `views.py`,
`utils.py`, `settings.py`) that the checked claims are about.

Modelling conventions:
- Byte strings are `List Nat`.
- Database tables are `List Credential`; a Django `QuerySet.get` /
  `find` is `List.find?`.
- External collaborators (the py_webauthn verification primitives,
  SHA-256, base64url codecs) are passed in as explicit function
  arguments: the code under verification only moves their outputs
  around, it never inspects them.
- Raising an exception is returning `Except.error`; Django's
  `session.save()` is modelled by threading the updated session value
  through the result.
-/

namespace DjangoOtpWebauthn

/-- Byte strings (Python `bytes`) are lists of naturals. -/
abbrev Bytes := List Nat

/-! ## Enums from `webauthn.helpers.structs` (py_webauthn)

Only the members and string values are relevant; they are copied from the
library's enum declarations, which the source imports. -/

/-- `webauthn.helpers.structs.UserVerificationRequirement`. -/
inductive UserVerificationRequirement
  | required
  | preferred
  | discouraged
  deriving DecidableEq, Repr

/-- The `.value` string of each `UserVerificationRequirement` member. -/
def UserVerificationRequirement.value : UserVerificationRequirement → String
  | .required => "required"
  | .preferred => "preferred"
  | .discouraged => "discouraged"

/-- `webauthn.helpers.structs.ResidentKeyRequirement`. -/
inductive ResidentKeyRequirement
  | discouraged
  | preferred
  | required
  deriving DecidableEq, Repr

/-- The `.value` string of each `ResidentKeyRequirement` member. -/
def ResidentKeyRequirement.value : ResidentKeyRequirement → String
  | .discouraged => "discouraged"
  | .preferred => "preferred"
  | .required => "required"

/-- `webauthn.helpers.structs.AttestationConveyancePreference`. -/
inductive AttestationConveyancePreference
  | none_
  | indirect
  | direct
  | enterprise
  deriving DecidableEq, Repr

/-- The string values of the `AuthenticatorTransport` enum members of
py_webauthn; `models.as_credential_descriptors` keeps exactly the raw
transport strings that are members of this enum. -/
def authenticatorTransportValues : List String :=
  ["usb", "nfc", "ble", "cable", "hybrid", "internal", "smart-card"]

/-- The integer values of the `COSEAlgorithmIdentifier` enum members of
py_webauthn (`ECDSA_SHA_256 = -7`, `EDDSA = -8`, `ECDSA_SHA_512 = -36`,
the RSA PSS and PKCS1 family, and `RSASSA_PKCS1_v1_5_SHA_1 = -65535`). -/
def coseAlgorithmIdentifierValues : List Int :=
  [-7, -8, -36, -37, -38, -39, -257, -258, -259, -65535]

/-! ## Data model: `models.py` -/

/-- The owning account, as far as this package reads it: primary key,
username, full name and the active flag (`django.contrib.auth` user). -/
structure UserRec where
  pk : Nat
  username : String
  full_name : String
  is_active : Bool
  deriving DecidableEq, Repr

/-- One row of `AbstractWebAuthnCredential` (`models.py`): the fields the
model declares, plus `name`/`confirmed` inherited from django-otp's
`Device` and `last_used_at` from `TimestampMixin`.  The `user` foreign key
is embedded as the referenced row. -/
structure Credential where
  pk : Nat
  user : UserRec
  name : String
  confirmed : Bool
  credential_type : String := "public-key"
  credential_id : Bytes
  public_key : Bytes
  transports : List String
  sign_count : Nat
  backup_eligible : Bool
  backup_state : Bool
  aaguid : String
  credential_id_sha256 : String
  discoverable : Option Bool
  last_used_at : Option Nat
  deriving DecidableEq, Repr

/-- `webauthn.helpers.structs.PublicKeyCredentialDescriptor`, with
transports kept as their enum string values. -/
structure PublicKeyCredentialDescriptor where
  id : Bytes
  transports : List String
  deriving DecidableEq, Repr

/-- `models.as_credential_descriptors`: build descriptors from
`(credential_id, transports)` rows, keeping only transport strings that are
members of the `AuthenticatorTransport` enum (the `except ValueError: pass`
loop). -/
def as_credential_descriptors (rows : List (Bytes × List String)) :
    List PublicKeyCredentialDescriptor :=
  rows.map fun row =>
    { id := row.1,
      transports := row.2.filter fun t => decide (t ∈ authenticatorTransportValues) }

/-- `AbstractWebAuthnCredential.get_credential_id_sha256`: hex digest of
SHA-256 of the credential id.  SHA-256 itself is the external `hashlib`
primitive, passed in as `H`. -/
def get_credential_id_sha256 (H : Bytes → String) (credential_id : Bytes) : String :=
  H credential_id

/-- `AbstractWebAuthnCredential.save`: before the row is written, if
`credential_id_sha256` is empty (falsy) it is recomputed from
`credential_id`.  This returns the row as it is persisted. -/
def credentialSave (H : Bytes → String) (c : Credential) : Credential :=
  if c.credential_id_sha256 = "" then
    { c with credential_id_sha256 := get_credential_id_sha256 H c.credential_id }
  else
    c

/-- `AbstractWebAuthnCredential.get_by_credential_id`: hash the given id
and query by the `credential_id_sha256` column (`objects.get`, modelled as
`find?`; `DoesNotExist` is `none`). -/
def get_by_credential_id (H : Bytes → String) (db : List Credential)
    (credential_id : Bytes) : Option Credential :=
  db.find? fun r => decide (r.credential_id_sha256 = get_credential_id_sha256 H credential_id)

/-- A hypothetical full-value scan on the `credential_id` column itself,
used to state that hash-based lookup is equivalent to scanning. -/
def scan_by_credential_id (db : List Credential) (credential_id : Bytes) :
    Option Credential :=
  db.find? fun r => decide (r.credential_id = credential_id)

/-- The Django `order_by(F("last_used_at").desc(nulls_last=True))`
comparison on credential rows: more recently used rows sort first, rows
never used (`last_used_at` null) sort last. -/
def lastUsedDescNullsLast (a b : Credential) : Bool :=
  match a.last_used_at, b.last_used_at with
  | some x, some y => decide (y ≤ x)
  | some _, none => true
  | none, some _ => false
  | none, none => true

/-- `AbstractWebAuthnCredential.get_credential_descriptors_for_user`:
filter the table to the given user's rows, order by `last_used_at`
descending with nulls last, take `(credential_id, transports)` and build
descriptors.  (The source applies no `confirmed` filter.) -/
def get_credential_descriptors_for_user (db : List Credential) (user : UserRec) :
    List PublicKeyCredentialDescriptor :=
  as_credential_descriptors
    ((((db.filter fun r => decide (r.user.pk = user.pk)).mergeSort
        lastUsedDescNullsLast).map fun r => (r.credential_id, r.transports)))

/-! ## Settings: `settings.py` -/

/-- The value of `OTP_WEBAUTHN_SUPPORTED_COSE_ALGORITHMS`: either the
string `"all"` or a list of COSE algorithm identifiers. -/
inductive CoseAlgorithmsSetting
  | all
  | algList (xs : List Int)
  deriving DecidableEq, Repr

/-- The subset of `AppSettings` (settings.py) that the modelled operations
read.  The `*_CALLABLE` settings are left at their falsy defaults, so
`get_relying_party_domain` / `get_relying_party_name` reduce to reading
`OTP_WEBAUTHN_RP_ID` / `OTP_WEBAUTHN_RP_NAME`. -/
structure AppSettings where
  allow_passwordless_login : Bool
  supported_cose_algorithms : CoseAlgorithmsSetting
  timeout_seconds : Nat
  rp_id : String
  rp_name : String
  allowed_origins : List String
  deriving DecidableEq, Repr

/-- `PyWebAuthnProvider.get_supported_key_algorithms` (helpers.py): the
special value `"all"` means `None` (defer to py_webauthn's defaults);
otherwise each configured identifier is kept when it is a member of the
`COSEAlgorithmIdentifier` enum (`if a in COSEAlgorithmIdentifier`,
Python >= 3.12 enum containment) and dropped otherwise. -/
def get_supported_key_algorithms (s : AppSettings) : Option (List Int) :=
  match s.supported_cose_algorithms with
  | .all => none
  | .algList raw => some (raw.filter fun a => decide (a ∈ coseAlgorithmIdentifierValues))

/-! ## Exceptions: `exceptions.py` and `webauthn.helpers.exceptions` -/

/-- The API exception classes of `exceptions.py` that the modelled code
paths raise, carrying their machine-readable code where relevant. -/
inductive ApiError
  | invalidState
  | unprocessableEntity (code : String)
  | passwordlessLoginDisabled
  | credentialDisabled
  | userDisabled
  | credentialNotFound
  deriving DecidableEq, Repr

/-- The `status_code` attribute of each `exceptions.py` class. -/
def ApiError.statusCode : ApiError → Nat
  | .invalidState => 400
  | .unprocessableEntity _ => 422
  | .passwordlessLoginDisabled => 403
  | .credentialDisabled => 403
  | .userDisabled => 403
  | .credentialNotFound => 404

/-- The full exception taxonomy of the external verification library:
the fifteen exception classes `webauthn.helpers.exceptions` defines.
Eleven of them appear in `utils.rewrite_exceptions`; the remaining four
(`InvalidRegistrationOptions`, `InvalidAuthenticationOptions`,
`UnsupportedPublicKeyType`, `SignatureVerificationException`) do not —
note `UnsupportedPublicKeyType` is raised by the library's
`decode_credential_public_key`, which runs inside
`verify_registration_response` / `verify_authentication_response`, i.e.
during a complete step. -/
inductive PyWebauthnException
  | invalidCBORData
  | invalidRegistrationResponse
  | invalidAuthenticationResponse
  | invalidJSONStructure
  | unsupportedAlgorithm
  | unsupportedPublicKey
  | invalidPublicKeyStructure
  | invalidAuthenticatorDataStructure
  | invalidCertificateChain
  | unsupportedEC2Curve
  | invalidBackupFlags
  | invalidRegistrationOptions
  | invalidAuthenticationOptions
  | unsupportedPublicKeyType
  | signatureVerificationException
  deriving DecidableEq, Repr

/-- What `rewrite_exceptions.__exit__` does with an exception raised in
its block: either it raises a fresh API error in its place, or it returns
`False` and the original exception propagates. -/
inductive ExitOutcome
  | raised (e : ApiError)
  | propagated (e : PyWebauthnException)
  deriving DecidableEq, Repr

/-- `utils.rewrite_exceptions.__exit__` (utils.py): the `if exc_type is
...` chain, one branch per py_webauthn exception type, ending in `return
False` (propagate) when no branch matches. -/
def rewrite_exceptions_exit (e : PyWebauthnException) : ExitOutcome :=
  if e = .invalidCBORData then
    .raised (.unprocessableEntity "invalid_cbor")
  else if e = .invalidRegistrationResponse then
    .raised (.unprocessableEntity "invalid_registration_response")
  else if e = .invalidAuthenticationResponse then
    .raised (.unprocessableEntity "invalid_authentication_response")
  else if e = .invalidJSONStructure then
    .raised (.unprocessableEntity "invalid_json_structure")
  else if e = .unsupportedAlgorithm then
    .raised (.unprocessableEntity "unsupported_algorithm")
  else if e = .unsupportedPublicKey ∨ e = .invalidPublicKeyStructure then
    .raised (.unprocessableEntity "unsupported_public_key")
  else if e = .invalidAuthenticatorDataStructure then
    .raised (.unprocessableEntity "invalid_authenticator_data_structure")
  else if e = .invalidCertificateChain then
    .raised (.unprocessableEntity "invalid_certificate_chain")
  else if e = .unsupportedEC2Curve then
    .raised (.unprocessableEntity "unsupported_ec2_curve")
  else if e = .invalidBackupFlags then
    .raised (.unprocessableEntity "invalid_backup_flags")
  else
    .propagated e

/-! ## Ceremony state and session -/

/-- The dict produced by `get_registration_state` /
`get_authentication_state` (helpers.py) and stored in the session:
`{"challenge": ..., "require_user_verification": ...}`.  The challenge is
the base64url string as it appears in the serialized options. -/
structure CeremonyState where
  challenge : String
  require_user_verification : Bool
  deriving DecidableEq, Repr

/-- The Django session, restricted to the two keys this package uses. -/
structure Session where
  otp_webauthn_register_state : Option CeremonyState
  otp_webauthn_authentication_state : Option CeremonyState
  deriving DecidableEq, Repr

/-- `CompleteCredentialRegistrationView.get_state` (views.py): pop the
registration state from the session, persist the session (`session.save()`
— modelled by returning the updated session in every outcome), then raise
`InvalidState` if no state was present. -/
def registration_get_state (s : Session) :
    Session × Except ApiError CeremonyState :=
  let state := s.otp_webauthn_register_state
  let s1 := { s with otp_webauthn_register_state := none }
  match state with
  | none => (s1, .error .invalidState)
  | some st => (s1, .ok st)

/-- `CompleteCredentialAuthenticationView.get_state` (views.py): same
pop-then-persist contract for the authentication state key. -/
def authentication_get_state (s : Session) :
    Session × Except ApiError CeremonyState :=
  let state := s.otp_webauthn_authentication_state
  let s1 := { s with otp_webauthn_authentication_state := none }
  match state with
  | none => (s1, .error .invalidState)
  | some st => (s1, .ok st)

/-! ## Registration begin: `helpers.py` -/

/-- `webauthn.helpers.structs.AuthenticatorSelectionCriteria`, as built by
`get_generate_registration_options_kwargs`. -/
structure AuthenticatorSelectionCriteria where
  user_verification : UserVerificationRequirement
  resident_key : ResidentKeyRequirement
  deriving DecidableEq, Repr

/-- `PyWebAuthnProvider.get_discoverable_credentials_preference`
(helpers.py): the body is a single `return ResidentKeyRequirement.PREFERRED`. -/
def get_discoverable_credentials_preference : ResidentKeyRequirement :=
  .preferred

/-- `PyWebAuthnProvider.get_attestation_conveyance_preference`
(helpers.py): always `AttestationConveyancePreference.NONE`. -/
def get_attestation_conveyance_preference : AttestationConveyancePreference :=
  .none_

/-- Python's `user.get_full_name() or user.get_username()`. -/
def fullNameOrUsername (user : UserRec) : String :=
  if user.full_name = "" then user.username else user.full_name

/-- The keyword-argument dict built by
`PyWebAuthnProvider.get_generate_registration_options_kwargs`; the
`supported_pub_key_algs` key is only present (`some`) when
`get_supported_key_algorithms` returned a truthy (non-`None`, non-empty)
list. -/
structure RegistrationOptionsKwargs where
  attestation : AttestationConveyancePreference
  authenticator_selection : AuthenticatorSelectionCriteria
  challenge : Bytes
  exclude_credentials : List PublicKeyCredentialDescriptor
  rp_id : String
  rp_name : String
  user_display_name : String
  user_id : Bytes
  user_name : String
  timeout : Nat
  supported_pub_key_algs : Option (List Int)
  deriving DecidableEq, Repr

/-- Python truthiness of the optional algorithm list: `if supported_algorithms:`
is false for both `None` and the empty list. -/
def truthyAlgorithms : Option (List Int) → Option (List Int)
  | none => none
  | some l => if l.isEmpty then none else some l

/-- `PyWebAuthnProvider.get_generate_registration_options_kwargs`
(helpers.py).  The fresh random challenge and the SHA-256 digest used by
`get_unique_anonymous_user_id` are external inputs (`challenge`,
`shaDigest`); `bytes(user.pk)` is Python's zero-filled byte string of
length `pk`. -/
def get_generate_registration_options_kwargs (s : AppSettings)
    (shaDigest : Bytes → Bytes) (db : List Credential) (user : UserRec)
    (challenge : Bytes) : RegistrationOptionsKwargs :=
  let user_verification := UserVerificationRequirement.preferred
  let discoverable_credentials := get_discoverable_credentials_preference
  let exclude_credentials := get_credential_descriptors_for_user db user
  let supported_algorithms := get_supported_key_algorithms s
  { attestation := get_attestation_conveyance_preference,
    authenticator_selection :=
      { user_verification := user_verification,
        resident_key := discoverable_credentials },
    challenge := challenge,
    exclude_credentials := exclude_credentials,
    rp_id := s.rp_id,
    rp_name := s.rp_name,
    user_display_name := fullNameOrUsername user,
    user_id := shaDigest (List.replicate user.pk 0),
    user_name := fullNameOrUsername user,
    timeout := s.timeout_seconds * 1000,
    supported_pub_key_algs := truthyAlgorithms supported_algorithms }

/-- The `authenticatorSelection` member of the serialized options dict, as
produced by py_webauthn's `generate_registration_options` followed by
`options_to_json` (camelCase keys, enum `.value` strings). -/
structure AuthenticatorSelectionJson where
  userVerification : String
  residentKey : String
  requireResidentKey : Bool
  deriving DecidableEq, Repr

/-- The fields of the serialized registration options dict that
`register_begin` and `get_registration_state` read. -/
structure RegistrationOptionsJson where
  challenge : String
  authenticatorSelection : AuthenticatorSelectionJson
  deriving DecidableEq, Repr

/-- The composition `options_to_json(generate_registration_options(**kwargs))`
restricted to the fields the source reads afterwards: the challenge is
base64url-encoded (`b64enc` is the external codec) and the authenticator
selection enums become their string values (`requireResidentKey` mirrors
py_webauthn: true exactly when the resident key requirement is
`required`). -/
def registration_options_to_json (b64enc : Bytes → String)
    (k : RegistrationOptionsKwargs) : RegistrationOptionsJson :=
  { challenge := b64enc k.challenge,
    authenticatorSelection :=
      { userVerification := k.authenticator_selection.user_verification.value,
        residentKey := k.authenticator_selection.resident_key.value,
        requireResidentKey :=
          decide (k.authenticator_selection.resident_key = .required) } }

/-- `PyWebAuthnProvider.get_registration_state` (helpers.py): keep the
challenge string and derive `require_user_verification` by comparing the
serialized `userVerification` against the `required` enum value. -/
def get_registration_state (creation_options : RegistrationOptionsJson) :
    CeremonyState :=
  { challenge := creation_options.challenge,
    require_user_verification :=
      creation_options.authenticatorSelection.userVerification
        == UserVerificationRequirement.required.value }

/-- `PyWebAuthnProvider.register_begin` (helpers.py): build the kwargs,
generate and serialize the options, derive the state, return both.  (The
`extensions` dict the source adds to the data is not read by any modelled
claim and is omitted from `RegistrationOptionsJson`.) -/
def register_begin (s : AppSettings) (shaDigest : Bytes → Bytes)
    (b64enc : Bytes → String) (db : List Credential) (user : UserRec)
    (challenge : Bytes) : RegistrationOptionsJson × CeremonyState :=
  let kwargs := get_generate_registration_options_kwargs s shaDigest db user challenge
  let data := registration_options_to_json b64enc kwargs
  let state := get_registration_state data
  (data, state)

/-! ## Authentication complete: `helpers.py` -/

/-- The parsed client assertion
(`parse_authentication_credential_json(data)`), restricted to the field
the orchestration reads: `raw_id`, the raw credential id bytes. -/
structure AuthenticationCredential where
  raw_id : Bytes
  deriving DecidableEq, Repr

/-- The result object of py_webauthn's `verify_authentication_response`,
restricted to the fields the source reads. -/
structure VerifiedAuthentication where
  new_sign_count : Nat
  credential_backed_up : Bool
  deriving DecidableEq, Repr

/-- The arguments `authenticate_complete` passes to
`verify_authentication_response`; `supported_algorithms` is only present
when truthy (mirroring the `if supported_algorithms:` kwargs guard). -/
structure VerifyAuthenticationArgs where
  credential : AuthenticationCredential
  credential_current_sign_count : Nat
  credential_public_key : Bytes
  expected_challenge : Bytes
  expected_rp_id : String
  expected_origin : List String
  require_user_verification : Bool
  supported_algorithms : Option (List Int)
  deriving DecidableEq, Repr

/-- The external py_webauthn verification primitive: given the assertion
and expectations, it either returns a verified result or raises a
py_webauthn exception. -/
abbrev AuthVerifier :=
  VerifyAuthenticationArgs → Except PyWebauthnException VerifiedAuthentication

/-- An error escaping a helper method: either one of the package's own API
exceptions, or a py_webauthn exception that will hit the view's
`rewrite_exceptions` block. -/
inductive HelperError
  | api (e : ApiError)
  | lib (e : PyWebauthnException)
  deriving DecidableEq, Repr

/-- The argument record `authenticate_complete` builds for
`verify_authentication_response` from the settings, the session state, the
located credential row and the parsed client data. -/
def authenticate_verify_args (s : AppSettings) (b64dec : String → Bytes)
    (state : CeremonyState) (data : AuthenticationCredential)
    (device : Credential) : VerifyAuthenticationArgs :=
  { credential := data,
    credential_current_sign_count := device.sign_count,
    credential_public_key := device.public_key,
    expected_challenge := b64dec state.challenge,
    expected_rp_id := s.rp_id,
    expected_origin := s.allowed_origins,
    require_user_verification := state.require_user_verification,
    supported_algorithms := truthyAlgorithms (get_supported_key_algorithms s) }

/-- Django's `save(update_fields=["sign_count", "last_used_at",
"backup_state"])` on a loaded row: the row with the same primary key is
updated, and only the three listed columns are written. -/
def persist_update_fields (db : List Credential) (dev : Credential) :
    List Credential :=
  db.map fun r =>
    if r.pk = dev.pk then
      { r with
        sign_count := dev.sign_count,
        backup_state := dev.backup_state,
        last_used_at := dev.last_used_at }
    else
      r

/-- `PyWebAuthnProvider.authenticate_complete` (helpers.py): parse the
assertion, look the credential up by its raw id (`DoesNotExist` becomes
`CredentialNotFound`), verify via py_webauthn with the stored public key
and sign count as baseline, then set `sign_count`, `backup_state` and
`last_used_at` (django-otp's `set_last_used_timestamp`, i.e. the current
time `now`) and save exactly those three fields.  The `user` parameter is
part of the signature but unused by the body, exactly as in the source.
Returns the updated table together with the in-memory device object. -/
def authenticate_complete (H : Bytes → String) (b64dec : String → Bytes)
    (verifier : AuthVerifier) (s : AppSettings) (now : Nat)
    (user : Option UserRec) (state : CeremonyState)
    (data : AuthenticationCredential) (db : List Credential) :
    Except HelperError (List Credential × Credential) :=
  let credential := data
  match get_by_credential_id H db credential.raw_id with
  | none => .error (.api .credentialNotFound)
  | some device =>
    match verifier (authenticate_verify_args s b64dec state credential device) with
    | .error e => .error (.lib e)
    | .ok response =>
      let device1 :=
        { device with
          sign_count := response.new_sign_count,
          backup_state := response.credential_backed_up,
          last_used_at := some now }
      .ok (persist_update_fields db device1, device1)

/-! ## The complete views: `views.py` -/

/-- An error leaving a complete view: an API exception handled by the REST
framework, or an exception no `rewrite_exceptions` branch matched, which
propagates unhandled. -/
inductive ViewError
  | api (e : ApiError)
  | unhandled (e : PyWebauthnException)
  deriving DecidableEq, Repr

/-- The `with rewrite_exceptions(logger=...):` block around a helper call:
API exceptions match no `exc_type is ...` branch and propagate as
themselves; py_webauthn exceptions are dispatched through
`rewrite_exceptions_exit`. -/
def run_with_rewrite {α : Type} (r : Except HelperError α) : Except ViewError α :=
  match r with
  | .ok a => .ok a
  | .error (.api e) => .error (.api e)
  | .error (.lib e) =>
    match rewrite_exceptions_exit e with
    | .raised a => .error (.api a)
    | .propagated ex => .error (.unhandled ex)

/-- `CompleteCredentialAuthenticationView.check_device_usable` (views.py):
`CredentialDisabled` if the credential is not confirmed, then
`UserDisabled` if its user is not active. -/
def check_device_usable (device : Credential) : Option ApiError :=
  if ¬device.confirmed then some .credentialDisabled
  else if ¬device.user.is_active then some .userDisabled
  else none

/-- Result of a POST to the authentication complete view: the persisted
session, the persisted credential table, and the response or error. -/
structure AuthPostResult where
  session : Session
  db : List Credential
  outcome : Except ViewError Credential
  deriving Repr

/-- `CompleteCredentialAuthenticationView.post` (views.py): pop-and-persist
the state (raising `InvalidState` when absent), run
`authenticate_complete` under `rewrite_exceptions`, then
`check_device_usable`.  The login side effects of `complete_auth` touch
neither the session keys modelled here nor the credential table.  Note the
database updates of `authenticate_complete` have already been persisted
when `check_device_usable` raises. -/
def authentication_complete_post (H : Bytes → String)
    (b64dec : String → Bytes) (verifier : AuthVerifier) (s : AppSettings)
    (now : Nat) (user : Option UserRec) (session : Session)
    (data : AuthenticationCredential) (db : List Credential) : AuthPostResult :=
  match authentication_get_state session with
  | (s1, .error e) => { session := s1, db := db, outcome := .error (.api e) }
  | (s1, .ok state) =>
    match run_with_rewrite (authenticate_complete H b64dec verifier s now user state data db) with
    | .error e => { session := s1, db := db, outcome := .error e }
    | .ok (db1, device) =>
      match check_device_usable device with
      | some e => { session := s1, db := db1, outcome := .error (.api e) }
      | none => { session := s1, db := db1, outcome := .ok device }

/-- Result of a POST to the registration complete view. -/
structure RegPostResult where
  session : Session
  outcome : Except ViewError Credential
  deriving Repr

/-- `CompleteCredentialRegistrationView.post` (views.py): pop-and-persist
the registration state (raising `InvalidState` when absent), then run
`register_complete` under `rewrite_exceptions`.  The helper's verification
and persistence internals are irrelevant to the state-handling claims and
are abstracted as the function `register_complete` from state to outcome. -/
def registration_complete_post
    (register_complete : CeremonyState → Except HelperError Credential)
    (session : Session) : RegPostResult :=
  match registration_get_state session with
  | (s1, .error e) => { session := s1, outcome := .error (.api e) }
  | (s1, .ok state) =>
    match run_with_rewrite (register_complete state) with
    | .error e => { session := s1, outcome := .error e }
    | .ok d => { session := s1, outcome := .ok d }

/-! ## Spec-side comparison definition (for the descriptor-listing claim) -/

/-- The spec's words for `list_descriptors_for_user`: "returns only
**confirmed** credentials, ordered by `last_used_at` descending with nulls
last".  Stated only to be compared against
`get_credential_descriptors_for_user`, which the source actually defines. -/
def list_descriptors_for_user_spec (db : List Credential) (user : UserRec) :
    List PublicKeyCredentialDescriptor :=
  as_credential_descriptors
    ((((db.filter fun r => decide (r.user.pk = user.pk ∧ r.confirmed = true)).mergeSort
        lastUsedDescNullsLast).map fun r => (r.credential_id, r.transports)))

/-! ## Concrete sample data shared by counterexamples and witnesses -/

/-- A sample active user. -/
def sampleUser : UserRec :=
  { pk := 1, username := "alice", full_name := "", is_active := true }

/-- A configuration with `OTP_WEBAUTHN_ALLOW_PASSWORDLESS_LOGIN = True`. -/
def settingsPasswordlessEnabled : AppSettings :=
  { allow_passwordless_login := true,
    supported_cose_algorithms := .all,
    timeout_seconds := 300,
    rp_id := "example.com",
    rp_name := "Example Corp",
    allowed_origins := ["https://example.com"] }

/-- A stored credential of `sampleUser` whose `confirmed` flag is false,
with `sign_count = 1` and never used. -/
def sampleUnconfirmedCredential : Credential :=
  { pk := 7, user := sampleUser, name := "key", confirmed := false,
    credential_id := [1], public_key := [2], transports := ["usb"],
    sign_count := 1, backup_eligible := false, backup_state := false,
    aaguid := "", credential_id_sha256 := "h1", discoverable := none,
    last_used_at := none }

/-- A concrete stand-in for the external SHA-256 hex digest, consistent
with the `credential_id_sha256` stored on the sample credentials. -/
def sampleHash (b : Bytes) : String :=
  if b = [1] then "h1" else "hx"

/-- A py_webauthn verifier that accepts the assertion and reports a new
sign count of 2 with the backup flag clear. -/
def sampleOkVerifier : AuthVerifier :=
  fun _ => .ok { new_sign_count := 2, credential_backed_up := false }

/-- A session in which only the authentication ceremony state is present. -/
def sampleAuthSession : Session :=
  { otp_webauthn_register_state := none,
    otp_webauthn_authentication_state :=
      some { challenge := "c", require_user_verification := false } }

/-- A sample parsed assertion referencing `sampleUnconfirmedCredential`. -/
def sampleAssertion : AuthenticationCredential := { raw_id := [1] }

/-! ## Claims -/

/-- C1, counterexample: with passwordless login enabled, `register_begin`
still returns `residentKey = "preferred"`, not `"required"` as the claim
states — `get_discoverable_credentials_preference` ignores the setting. -/
theorem C1_counterexample :
    settingsPasswordlessEnabled.allow_passwordless_login = true
    ∧ (register_begin settingsPasswordlessEnabled (fun _ => []) (fun _ => "")
        [] sampleUser []).1.authenticatorSelection.residentKey
      = "preferred"
    ∧ (register_begin settingsPasswordlessEnabled (fun _ => []) (fun _ => "")
        [] sampleUser []).1.authenticatorSelection.residentKey
      ≠ "required" := by
  refine ⟨rfl, rfl, ?_⟩
  intro h
  exact absurd h (by decide)

/-- C1, amended: for every configuration and user, the registration
options returned by `register_begin` set the authenticator-selection
residentKey preference to `"preferred"`, regardless of whether the
passwordless-login setting is enabled or disabled. -/
theorem C1_resident_key_always_preferred (s : AppSettings)
    (shaDigest : Bytes → Bytes) (b64enc : Bytes → String)
    (db : List Credential) (user : UserRec) (challenge : Bytes) :
    (register_begin s shaDigest b64enc db user challenge).1.authenticatorSelection.residentKey
      = ResidentKeyRequirement.preferred.value
    ∧ (get_generate_registration_options_kwargs s shaDigest db user
        challenge).authenticator_selection.resident_key
      = get_discoverable_credentials_preference := by
  exact ⟨rfl, rfl⟩

/-- The eleven library exception types that the `exc_type is ...` chain of
`utils.rewrite_exceptions.__exit__` names. -/
def handledPyWebauthnExceptions : List PyWebauthnException :=
  [.invalidCBORData, .invalidRegistrationResponse,
    .invalidAuthenticationResponse, .invalidJSONStructure,
    .unsupportedAlgorithm, .unsupportedPublicKey, .invalidPublicKeyStructure,
    .invalidAuthenticatorDataStructure, .invalidCertificateChain,
    .unsupportedEC2Curve, .invalidBackupFlags]

/-- C7, counterexample: `UnsupportedPublicKeyType` — a library exception
raisable during a complete step — matches no branch of
`rewrite_exceptions.__exit__`, so `__exit__` returns `False` and the
library-specific exception propagates past the adapter boundary and out of
the view's `with rewrite_exceptions` block unwrapped, instead of being
re-raised as an `UnprocessableEntity`. -/
theorem C7_counterexample :
    rewrite_exceptions_exit PyWebauthnException.unsupportedPublicKeyType
      = ExitOutcome.propagated PyWebauthnException.unsupportedPublicKeyType
    ∧ run_with_rewrite
        (Except.error (HelperError.lib
          PyWebauthnException.unsupportedPublicKeyType) :
          Except HelperError Credential)
      = Except.error (ViewError.unhandled
          PyWebauthnException.unsupportedPublicKeyType) := by
  exact ⟨rfl, rfl⟩

/-- C7, amended: each of the eleven library exception types the adapter's
rewrite list names is caught and re-raised as an `UnprocessableEntity`
(status 422) carrying a stable machine-readable sub-code (e.g.
`invalid_cbor`, `invalid_registration_response`, `unsupported_algorithm`);
library exception types outside that list are not rewritten and propagate
as themselves. -/
theorem C7_handled_exceptions_rewritten (e : PyWebauthnException) :
    (e ∈ handledPyWebauthnExceptions →
      ∃ c : String, rewrite_exceptions_exit e = .raised (.unprocessableEntity c)
        ∧ (ApiError.unprocessableEntity c).statusCode = 422)
    ∧ (e ∉ handledPyWebauthnExceptions →
        rewrite_exceptions_exit e = .propagated e)
    ∧ rewrite_exceptions_exit .invalidCBORData
      = .raised (.unprocessableEntity "invalid_cbor")
    ∧ rewrite_exceptions_exit .invalidRegistrationResponse
      = .raised (.unprocessableEntity "invalid_registration_response")
    ∧ rewrite_exceptions_exit .unsupportedAlgorithm
      = .raised (.unprocessableEntity "unsupported_algorithm") := by
  cases e <;>
  refine ⟨fun h => ?_, fun h => ?_, rfl, rfl, rfl⟩ <;>
  first
    | exact ⟨_, rfl, rfl⟩
    | rfl
    | exact absurd (by decide) h
    | exact absurd h (by decide)

/-- C7 witness: the amended theorem applied to the handled
`InvalidCBORData` and to the unhandled `UnsupportedPublicKeyType`. -/
theorem C7_witness :
    PyWebauthnException.invalidCBORData ∈ handledPyWebauthnExceptions
    ∧ (∃ c : String,
        rewrite_exceptions_exit PyWebauthnException.invalidCBORData
          = .raised (.unprocessableEntity c)
        ∧ (ApiError.unprocessableEntity c).statusCode = 422)
    ∧ PyWebauthnException.unsupportedPublicKeyType ∉ handledPyWebauthnExceptions
    ∧ rewrite_exceptions_exit PyWebauthnException.unsupportedPublicKeyType
      = ExitOutcome.propagated PyWebauthnException.unsupportedPublicKeyType := by
  exact ⟨by decide,
    (C7_handled_exceptions_rewritten PyWebauthnException.invalidCBORData).1
      (by decide),
    by decide,
    (C7_handled_exceptions_rewritten
      PyWebauthnException.unsupportedPublicKeyType).2.1 (by decide)⟩

/-- C8: for every user and configuration, the ceremony state returned by
`register_begin` has `require_user_verification = false`: the options fix
the user-verification policy at `preferred`, and the state's flag is the
comparison of the serialized policy against `"required"`. -/
theorem C8_registration_state_never_requires_verification (s : AppSettings)
    (shaDigest : Bytes → Bytes) (b64enc : Bytes → String)
    (db : List Credential) (user : UserRec) (challenge : Bytes) :
    (register_begin s shaDigest b64enc db user challenge).2.require_user_verification
      = false
    ∧ (get_generate_registration_options_kwargs s shaDigest db user
        challenge).authenticator_selection.user_verification
      = UserVerificationRequirement.preferred
    ∧ (register_begin s shaDigest b64enc db user
        challenge).1.authenticatorSelection.userVerification
      = "preferred" := by
  exact ⟨rfl, rfl, rfl⟩

/-- C9: `authenticate_complete` is independent of its `user` argument —
any two calls differing only in `user` (including `none`) are equal: the
credential is located solely via the id in the response and updated
identically. -/
theorem C9_authenticate_complete_ignores_user (H : Bytes → String)
    (b64dec : String → Bytes) (verifier : AuthVerifier) (s : AppSettings)
    (now : Nat) (u1 u2 : Option UserRec) (state : CeremonyState)
    (data : AuthenticationCredential) (db : List Credential) :
    authenticate_complete H b64dec verifier s now u1 state data db
      = authenticate_complete H b64dec verifier s now u2 state data db := by
  rfl

/-- C10: `get_supported_key_algorithms` is total over any configured list;
it returns `none` (defer to the library defaults) exactly for the setting
`"all"`, and otherwise returns exactly the configured identifiers that are
known COSE algorithm values, in order, silently dropping unknown ones. -/
theorem C10_supported_algorithms_total (s : AppSettings) :
    (s.supported_cose_algorithms = .all → get_supported_key_algorithms s = none)
    ∧ ∀ raw : List Int, s.supported_cose_algorithms = .algList raw →
        ∃ l : List Int, get_supported_key_algorithms s = some l
          ∧ List.Sublist l raw
          ∧ ∀ a : Int, a ∈ l ↔ (a ∈ raw ∧ a ∈ coseAlgorithmIdentifierValues) := by
  constructor
  · intro h
    simp [get_supported_key_algorithms, h]
  · intro raw h
    refine ⟨raw.filter fun a => decide (a ∈ coseAlgorithmIdentifierValues), ?_, ?_, ?_⟩
    · simp [get_supported_key_algorithms, h]
    · exact List.filter_sublist raw
    · intro a
      simp [List.mem_filter]

/-- C10 witness: the theorem applied at a concrete "all" configuration and
at a concrete list containing the known `-7` and the unknown `0`. -/
theorem C10_witness :
    settingsPasswordlessEnabled.supported_cose_algorithms = .all
    ∧ get_supported_key_algorithms settingsPasswordlessEnabled = none
    ∧ ∃ l : List Int,
        get_supported_key_algorithms
          { settingsPasswordlessEnabled with
            supported_cose_algorithms := .algList [-7, 0] } = some l
        ∧ List.Sublist l [-7, 0]
        ∧ ∀ a : Int, a ∈ l ↔ (a ∈ ([-7, 0] : List Int) ∧ a ∈ coseAlgorithmIdentifierValues) := by
  refine ⟨rfl, ?_, ?_⟩
  · exact (C10_supported_algorithms_total settingsPasswordlessEnabled).1 rfl
  · exact (C10_supported_algorithms_total
      { settingsPasswordlessEnabled with
        supported_cose_algorithms := .algList [-7, 0] }).2 [-7, 0] rfl

/-- Helper: the registration complete view always leaves the session with
the registration state removed, whatever the helper outcome was. -/
theorem regPost_session_state_none
    (rc : CeremonyState → Except HelperError Credential) (session : Session) :
    (registration_complete_post rc session).session.otp_webauthn_register_state
      = none := by
  unfold registration_complete_post registration_get_state
  cases h : session.otp_webauthn_register_state with
  | none => simp [h]
  | some st =>
    simp only [h]
    cases run_with_rewrite (rc st) <;> simp

/-- Helper: the registration complete view raises `InvalidState` whenever
the session holds no registration state. -/
theorem regPost_invalidState_of_none
    (rc : CeremonyState → Except HelperError Credential) (session : Session)
    (h : session.otp_webauthn_register_state = none) :
    (registration_complete_post rc session).outcome
      = .error (.api .invalidState) := by
  unfold registration_complete_post registration_get_state
  simp [h]

/-- Helper: the authentication complete view always leaves the session
with the authentication state removed, whatever the outcome was. -/
theorem authPost_session_state_none (H : Bytes → String)
    (b64dec : String → Bytes) (verifier : AuthVerifier) (s : AppSettings)
    (now : Nat) (user : Option UserRec) (session : Session)
    (data : AuthenticationCredential) (db : List Credential) :
    (authentication_complete_post H b64dec verifier s now user session data
        db).session.otp_webauthn_authentication_state = none := by
  unfold authentication_complete_post authentication_get_state
  cases h : session.otp_webauthn_authentication_state with
  | none => simp [h]
  | some st =>
    simp only [h]
    cases hr : run_with_rewrite (authenticate_complete H b64dec verifier s now user st data db) with
    | error e => simp
    | ok p =>
      cases hc : check_device_usable p.2 <;> simp [hc]

/-- Helper: the authentication complete view raises `InvalidState`
whenever the session holds no authentication state. -/
theorem authPost_invalidState_of_none (H : Bytes → String)
    (b64dec : String → Bytes) (verifier : AuthVerifier) (s : AppSettings)
    (now : Nat) (user : Option UserRec) (session : Session)
    (data : AuthenticationCredential) (db : List Credential)
    (h : session.otp_webauthn_authentication_state = none) :
    (authentication_complete_post H b64dec verifier s now user session data
        db).outcome = .error (.api .invalidState) := by
  unfold authentication_complete_post authentication_get_state
  simp [h]

/-- C2: for both ceremonies, the complete view removes the ceremony state
from the session and persists the removal whatever the outcome; a second
complete call with the same session — after a successful or a failed first
completion alike — and any complete call with no state present, raise
`InvalidState`. -/
theorem C2_state_single_use
    (rc : CeremonyState → Except HelperError Credential)
    (H : Bytes → String) (b64dec : String → Bytes) (verifier : AuthVerifier)
    (s : AppSettings) (now : Nat) (user : Option UserRec)
    (data data2 : AuthenticationCredential) (db db2 : List Credential)
    (session : Session) (a r : Option CeremonyState) :
    (registration_complete_post rc session).session.otp_webauthn_register_state
      = none
    ∧ (registration_complete_post rc
        { otp_webauthn_register_state := none,
          otp_webauthn_authentication_state := a }).outcome
      = .error (.api .invalidState)
    ∧ (registration_complete_post rc
        (registration_complete_post rc session).session).outcome
      = .error (.api .invalidState)
    ∧ (authentication_complete_post H b64dec verifier s now user session data
        db).session.otp_webauthn_authentication_state = none
    ∧ (authentication_complete_post H b64dec verifier s now user
        { otp_webauthn_register_state := r,
          otp_webauthn_authentication_state := none } data db).outcome
      = .error (.api .invalidState)
    ∧ (authentication_complete_post H b64dec verifier s now user
        (authentication_complete_post H b64dec verifier s now user session
          data db).session data2 db2).outcome
      = .error (.api .invalidState) := by
  refine ⟨regPost_session_state_none rc session, ?_, ?_, ?_, ?_, ?_⟩
  · exact regPost_invalidState_of_none rc _ rfl
  · exact regPost_invalidState_of_none rc _ (regPost_session_state_none rc session)
  · exact authPost_session_state_none H b64dec verifier s now user session data db
  · exact authPost_invalidState_of_none H b64dec verifier s now user _ data db rfl
  · exact authPost_invalidState_of_none H b64dec verifier s now user _ data2 db2
      (authPost_session_state_none H b64dec verifier s now user session data db)

/-- Helper: on a table whose rows satisfy the stored-hash invariant, and
for a probe id whose hash collides with no differing stored id, looking up
by stored hash scans the same row as a full-value scan on the id column. -/
theorem find_hash_eq_scan (H : Bytes → String) (cid : Bytes) :
    ∀ db : List Credential,
      (∀ r ∈ db, r.credential_id_sha256 = H r.credential_id) →
      (∀ r ∈ db, H r.credential_id = H cid → r.credential_id = cid) →
      get_by_credential_id H db cid = scan_by_credential_id db cid := by
  intro db
  induction db with
  | nil => intro _ _; rfl
  | cons r rest ih =>
    intro hinv hinj
    have hrmem : r ∈ r :: rest := List.mem_cons_self r rest
    unfold get_by_credential_id scan_by_credential_id get_credential_id_sha256
    by_cases hc : r.credential_id = cid
    · have hh : r.credential_id_sha256 = H cid := by
        rw [hinv r hrmem, hc]
      simp [List.find?_cons, hh, hc]
    · have hh : ¬r.credential_id_sha256 = H cid := by
        intro he
        exact hc (hinj r hrmem (by rw [← hinv r hrmem]; exact he))
      have htail := ih
        (fun x hx => hinv x (List.mem_cons_of_mem _ hx))
        (fun x hx => hinj x (List.mem_cons_of_mem _ hx))
      unfold get_by_credential_id scan_by_credential_id get_credential_id_sha256 at htail
      simp [List.find?_cons, hh, hc, htail]

/-- C5: saving a credential whose hash column is empty stores the SHA-256
of its `credential_id`; a subsequent lookup by that credential id finds
the saved record; and under the stored-hash invariant, with no hash
collisions among the involved ids, hash-based lookup agrees with a
full-value scan on `credential_id`. -/
theorem C5_hash_lookup_consistent (H : Bytes → String) (db : List Credential)
    (c : Credential)
    (hinv : ∀ r ∈ db, r.credential_id_sha256 = H r.credential_id)
    (hempty : c.credential_id_sha256 = "") :
    (credentialSave H c).credential_id_sha256
      = get_credential_id_sha256 H c.credential_id
    ∧ get_by_credential_id H (credentialSave H c :: db) c.credential_id
      = some (credentialSave H c)
    ∧ ∀ cid : Bytes,
        (∀ r ∈ db, H r.credential_id = H cid → r.credential_id = cid) →
        get_by_credential_id H db cid = scan_by_credential_id db cid := by
  have h1 : (credentialSave H c).credential_id_sha256
      = get_credential_id_sha256 H c.credential_id := by
    unfold credentialSave
    rw [hempty]
    simp
  refine ⟨h1, ?_, ?_⟩
  · unfold get_by_credential_id
    simp [List.find?_cons, h1]
  · intro cid hinjc
    exact find_hash_eq_scan H cid db hinv hinjc

/-- A second concrete stand-in for the SHA-256 hex digest, used by the
hash-lookup witness; collision-free on the ids involved. -/
def sampleHash2 (b : Bytes) : String :=
  if b = [5] then "h5" else if b = [2] then "h2" else "h0"

/-- A stored credential with id `[5]` whose hash column is consistent. -/
def storedCredential : Credential :=
  { pk := 9, user := sampleUser, name := "stored", confirmed := true,
    credential_id := [5], public_key := [6], transports := [],
    sign_count := 0, backup_eligible := false, backup_state := false,
    aaguid := "", credential_id_sha256 := "h5", discoverable := none,
    last_used_at := none }

/-- A freshly created credential with id `[2]` whose hash column is still
empty, as `create_credential` leaves it before the first save. -/
def freshCredential : Credential :=
  { pk := 10, user := sampleUser, name := "fresh", confirmed := true,
    credential_id := [2], public_key := [4], transports := [],
    sign_count := 0, backup_eligible := false, backup_state := false,
    aaguid := "", credential_id_sha256 := "", discoverable := none,
    last_used_at := none }

/-- C5 witness: the hash-lookup theorem applied to a concrete one-row
table, a concrete fresh credential and a concrete collision-free digest
function. -/
theorem C5_witness :
    storedCredential.credential_id_sha256
      = sampleHash2 storedCredential.credential_id
    ∧ freshCredential.credential_id_sha256 = ""
    ∧ (credentialSave sampleHash2 freshCredential).credential_id_sha256
      = get_credential_id_sha256 sampleHash2 freshCredential.credential_id
    ∧ get_by_credential_id sampleHash2
        (credentialSave sampleHash2 freshCredential :: [storedCredential])
        freshCredential.credential_id
      = some (credentialSave sampleHash2 freshCredential)
    ∧ get_by_credential_id sampleHash2 [storedCredential]
        storedCredential.credential_id
      = scan_by_credential_id [storedCredential]
        storedCredential.credential_id := by
  have h := C5_hash_lookup_consistent sampleHash2 [storedCredential]
    freshCredential (by decide) rfl
  exact ⟨by decide, rfl, h.1, h.2.1,
    h.2.2 storedCredential.credential_id (by decide)⟩

/-- A sample authentication ceremony state. -/
def sampleState : CeremonyState :=
  { challenge := "c", require_user_verification := false }

/-- A sample parsed assertion referencing `storedCredential`. -/
def sampleAssertion5 : AuthenticationCredential := { raw_id := [5] }

/-- C6: a successful `authenticate_complete` returns the updated device
and persists exactly the three fields `sign_count` (the
authenticator-reported new count), `backup_state` (the reported backup
flag) and `last_used_at` (a non-null timestamp) on the credential's row,
leaving every other stored field of that row, and every other row,
unchanged. -/
theorem C6_update_persists_exactly_three_fields (H : Bytes → String)
    (b64dec : String → Bytes) (verifier : AuthVerifier) (s : AppSettings)
    (now : Nat) (user : Option UserRec) (state : CeremonyState)
    (data : AuthenticationCredential) (db : List Credential)
    (device : Credential) (resp : VerifiedAuthentication)
    (hfind : get_by_credential_id H db data.raw_id = some device)
    (hver : verifier (authenticate_verify_args s b64dec state data device)
      = .ok resp) :
    ∃ db1 device1,
      authenticate_complete H b64dec verifier s now user state data db
        = .ok (db1, device1)
      ∧ device1.sign_count = resp.new_sign_count
      ∧ device1.backup_state = resp.credential_backed_up
      ∧ device1.last_used_at = some now
      ∧ device1.last_used_at ≠ none
      ∧ db1.length = db.length
      ∧ ∀ (i : Nat) (h : i < db.length) (h1 : i < db1.length),
          db1.get ⟨i, h1⟩ =
            if (db.get ⟨i, h⟩).pk = device.pk then
              { db.get ⟨i, h⟩ with
                sign_count := resp.new_sign_count,
                backup_state := resp.credential_backed_up,
                last_used_at := some now }
            else db.get ⟨i, h⟩ := by
  refine ⟨persist_update_fields db
      { device with
        sign_count := resp.new_sign_count,
        backup_state := resp.credential_backed_up,
        last_used_at := some now },
    { device with
      sign_count := resp.new_sign_count,
      backup_state := resp.credential_backed_up,
      last_used_at := some now },
    ?_, rfl, rfl, rfl, by simp, ?_, ?_⟩
  · unfold authenticate_complete
    simp only [hfind, hver]
  · simp [persist_update_fields]
  · intro i h h1
    simp [persist_update_fields, List.get_eq_getElem, List.getElem_map]

/-- C6 witness: the frame theorem applied to a concrete one-row table, the
concrete digest stand-in, and a verifier accepting with new count 2. -/
theorem C6_witness :
    get_by_credential_id sampleHash2 [storedCredential] sampleAssertion5.raw_id
      = some storedCredential
    ∧ sampleOkVerifier
        (authenticate_verify_args settingsPasswordlessEnabled (fun _ => [])
          sampleState sampleAssertion5 storedCredential)
      = .ok { new_sign_count := 2, credential_backed_up := false }
    ∧ ∃ db1 device1,
        authenticate_complete sampleHash2 (fun _ => []) sampleOkVerifier
          settingsPasswordlessEnabled 42 none sampleState sampleAssertion5
          [storedCredential] = .ok (db1, device1)
        ∧ device1.sign_count
          = ({ new_sign_count := 2, credential_backed_up := false } :
              VerifiedAuthentication).new_sign_count
        ∧ device1.backup_state
          = ({ new_sign_count := 2, credential_backed_up := false } :
              VerifiedAuthentication).credential_backed_up
        ∧ device1.last_used_at = some 42
        ∧ device1.last_used_at ≠ none
        ∧ db1.length = [storedCredential].length
        ∧ ∀ (i : Nat) (h : i < [storedCredential].length) (h1 : i < db1.length),
            db1.get ⟨i, h1⟩ =
              if ([storedCredential].get ⟨i, h⟩).pk = storedCredential.pk then
                { [storedCredential].get ⟨i, h⟩ with
                  sign_count := 2,
                  backup_state := false,
                  last_used_at := some 42 }
              else [storedCredential].get ⟨i, h⟩ := by
  refine ⟨by decide, rfl, ?_⟩
  exact C6_update_persists_exactly_three_fields sampleHash2 (fun _ => [])
    sampleOkVerifier settingsPasswordlessEnabled 42 none sampleState
    sampleAssertion5 [storedCredential] storedCredential
    { new_sign_count := 2, credential_backed_up := false } (by decide) rfl

/-- C3, counterexample: an otherwise-valid assertion completed against the
stored credential with `confirmed = False` and `sign_count = 1` does yield
`CredentialDisabled`, but the stored `sign_count` HAS been updated to the
authenticator-reported 2 — `authenticate_complete` saves before
`check_device_usable` runs, contradicting the claim's "no fields are
persisted". -/
theorem C3_counterexample :
    (authentication_complete_post sampleHash (fun _ => []) sampleOkVerifier
        settingsPasswordlessEnabled 100 (some sampleUser) sampleAuthSession
        sampleAssertion [sampleUnconfirmedCredential]).outcome
      = .error (.api .credentialDisabled)
    ∧ (authentication_complete_post sampleHash (fun _ => []) sampleOkVerifier
        settingsPasswordlessEnabled 100 (some sampleUser) sampleAuthSession
        sampleAssertion [sampleUnconfirmedCredential]).db.map
        Credential.sign_count
      = [2]
    ∧ sampleUnconfirmedCredential.sign_count = 1 := by
  exact ⟨rfl, rfl, rfl⟩

/-- C3, amended: completing an otherwise-valid assertion against a stored
credential with `confirmed = False` fails with `CredentialDisabled`, but
the credential's `sign_count`, `backup_state` and `last_used_at` have
already been updated and persisted by `authenticate_complete` before the
usability check runs. -/
theorem C3_disabled_credential_rejected_after_persist (H : Bytes → String)
    (b64dec : String → Bytes) (verifier : AuthVerifier) (s : AppSettings)
    (now : Nat) (user : Option UserRec) (session : Session)
    (data : AuthenticationCredential) (db : List Credential)
    (st : CeremonyState) (device : Credential) (resp : VerifiedAuthentication)
    (hsess : session.otp_webauthn_authentication_state = some st)
    (hfind : get_by_credential_id H db data.raw_id = some device)
    (hver : verifier (authenticate_verify_args s b64dec st data device)
      = .ok resp)
    (hconf : device.confirmed = false) :
    (authentication_complete_post H b64dec verifier s now user session data
        db).outcome = .error (.api .credentialDisabled)
    ∧ (authentication_complete_post H b64dec verifier s now user session data
        db).db.length = db.length
    ∧ ∀ (i : Nat) (h : i < db.length),
        (authentication_complete_post H b64dec verifier s now user session
            data db).db[i]? =
          some (if (db.get ⟨i, h⟩).pk = device.pk then
            { db.get ⟨i, h⟩ with
              sign_count := resp.new_sign_count,
              backup_state := resp.credential_backed_up,
              last_used_at := some now }
          else db.get ⟨i, h⟩) := by
  have hpost : authentication_complete_post H b64dec verifier s now user
      session data db =
      { session := { session with otp_webauthn_authentication_state := none },
        db := persist_update_fields db
          { device with
            sign_count := resp.new_sign_count,
            backup_state := resp.credential_backed_up,
            last_used_at := some now },
        outcome := .error (.api .credentialDisabled) } := by
    unfold authentication_complete_post authentication_get_state
    simp only [hsess]
    unfold authenticate_complete
    simp only [hfind, hver]
    unfold run_with_rewrite check_device_usable
    simp [hconf]
  refine ⟨by rw [hpost], by rw [hpost]; simp [persist_update_fields], ?_⟩
  intro i h
  rw [hpost]
  simp [persist_update_fields, List.getElem?_map, List.get_eq_getElem,
    List.getElem?_eq_getElem h]

/-- C3 witness: the amended theorem applied at the concrete disabled
credential, concrete session state and accepting verifier. -/
theorem C3_witness :
    sampleAuthSession.otp_webauthn_authentication_state
      = some { challenge := "c", require_user_verification := false }
    ∧ get_by_credential_id sampleHash [sampleUnconfirmedCredential]
        sampleAssertion.raw_id = some sampleUnconfirmedCredential
    ∧ sampleOkVerifier
        (authenticate_verify_args settingsPasswordlessEnabled (fun _ => [])
          { challenge := "c", require_user_verification := false }
          sampleAssertion sampleUnconfirmedCredential)
      = .ok { new_sign_count := 2, credential_backed_up := false }
    ∧ sampleUnconfirmedCredential.confirmed = false
    ∧ (authentication_complete_post sampleHash (fun _ => []) sampleOkVerifier
        settingsPasswordlessEnabled 100 (some sampleUser) sampleAuthSession
        sampleAssertion [sampleUnconfirmedCredential]).outcome
      = .error (.api .credentialDisabled)
    ∧ (authentication_complete_post sampleHash (fun _ => []) sampleOkVerifier
        settingsPasswordlessEnabled 100 (some sampleUser) sampleAuthSession
        sampleAssertion [sampleUnconfirmedCredential]).db.length
      = [sampleUnconfirmedCredential].length
    ∧ ∀ (i : Nat) (h : i < [sampleUnconfirmedCredential].length),
        (authentication_complete_post sampleHash (fun _ => [])
            sampleOkVerifier settingsPasswordlessEnabled 100 (some sampleUser)
            sampleAuthSession sampleAssertion
            [sampleUnconfirmedCredential]).db[i]? =
          some (if ([sampleUnconfirmedCredential].get ⟨i, h⟩).pk
              = sampleUnconfirmedCredential.pk then
            { [sampleUnconfirmedCredential].get ⟨i, h⟩ with
              sign_count := 2,
              backup_state := false,
              last_used_at := some 100 }
          else [sampleUnconfirmedCredential].get ⟨i, h⟩) := by
  have h := C3_disabled_credential_rejected_after_persist sampleHash
    (fun _ => []) sampleOkVerifier settingsPasswordlessEnabled 100
    (some sampleUser) sampleAuthSession sampleAssertion
    [sampleUnconfirmedCredential]
    { challenge := "c", require_user_verification := false }
    sampleUnconfirmedCredential
    { new_sign_count := 2, credential_backed_up := false }
    rfl (by decide) rfl rfl
  exact ⟨rfl, by decide, rfl, rfl, h.1, h.2.1, h.2.2⟩

/-- Helper: the descending-nulls-last comparison is transitive. -/
theorem lastUsedDescNullsLast_trans (a b c : Credential)
    (hab : lastUsedDescNullsLast a b = true)
    (hbc : lastUsedDescNullsLast b c = true) :
    lastUsedDescNullsLast a c = true := by
  unfold lastUsedDescNullsLast at *
  cases ha : a.last_used_at <;> cases hb : b.last_used_at <;>
    cases hc : c.last_used_at <;> simp_all <;> omega

/-- Helper: the descending-nulls-last comparison is total. -/
theorem lastUsedDescNullsLast_total (a b : Credential) :
    (lastUsedDescNullsLast a b || lastUsedDescNullsLast b a) = true := by
  unfold lastUsedDescNullsLast
  cases ha : a.last_used_at <;> cases hb : b.last_used_at <;> simp_all <;> omega

/-- C4, counterexample: for a user whose only credential is unconfirmed,
`get_credential_descriptors_for_user` returns that credential's
descriptor, while the spec's confirmed-only `list_descriptors_for_user`
would return nothing — the source applies no `confirmed` filter. -/
theorem C4_counterexample :
    sampleUnconfirmedCredential.confirmed = false
    ∧ get_credential_descriptors_for_user [sampleUnconfirmedCredential]
        sampleUser
      = [{ id := [1], transports := ["usb"] }]
    ∧ list_descriptors_for_user_spec [sampleUnconfirmedCredential] sampleUser
      = []
    ∧ ([{ id := [1], transports := ["usb"] }] :
        List PublicKeyCredentialDescriptor) ≠ [] := by
  refine ⟨rfl, ?_, ?_, by simp⟩
  · unfold get_credential_descriptors_for_user as_credential_descriptors
    simp [sampleUnconfirmedCredential, sampleUser, authenticatorTransportValues]
  · unfold list_descriptors_for_user_spec as_credential_descriptors
    simp [sampleUnconfirmedCredential, sampleUser]

/-- C4, amended: for every user, the credential-descriptor list contains
descriptors of exactly that user's credentials — confirmed and unconfirmed
alike — ordered by `last_used_at` descending with nulls last
(most-recently-used first, never-used last). -/
theorem C4_descriptors_all_user_credentials_ordered (db : List Credential)
    (user : UserRec) :
    ∃ rows : List Credential,
      List.Perm rows (db.filter fun r => decide (r.user.pk = user.pk))
      ∧ List.Pairwise (fun a b => lastUsedDescNullsLast a b = true) rows
      ∧ get_credential_descriptors_for_user db user
        = rows.map fun r =>
            { id := r.credential_id,
              transports := r.transports.filter fun t =>
                decide (t ∈ authenticatorTransportValues) } := by
  refine ⟨(db.filter fun r => decide (r.user.pk = user.pk)).mergeSort
      lastUsedDescNullsLast,
    List.mergeSort_perm _ _,
    List.sorted_mergeSort lastUsedDescNullsLast_trans
      lastUsedDescNullsLast_total _, ?_⟩
  unfold get_credential_descriptors_for_user as_credential_descriptors
  simp [List.map_map]

end DjangoOtpWebauthn
